import Mathlib

/-!
Shallow embedding of the `logopher` package (a UDP LogStash client) and
verification of its specified behavior.

The package owns a datagram socket, serializes a message into a fixed JSON
template, writes bytes in a write-until-complete loop, and closes the socket
once if a write fails.  External collaborators (the OS socket primitives, the
hostname lookup, the wall clock) are modelled as explicit oracles passed to
each operation, and every externally visible call the code makes is recorded
in an event trace.
-/

namespace Logopher

/-- Errors coming back from the runtime (Go `error` values), identified by
their message. -/
abbrev Err := String

/-- The writer object: `socket` (the connected datagram handle, `none` before
`open` has run), the configured remote `address`, and the diagnostic-logging
flag.  Mirrors the Go struct `UDPWriter`. -/
structure UDPWriter where
  socket : Option Nat
  address : String
  enableLogging : Bool
deriving DecidableEq, Repr

/-- Behavior of the connected datagram socket during one `Write` call:
the successive results `(bytesWritten, error)` of each `socket.Write`
invocation, and the result of `socket.Close`. -/
structure SocketBehavior where
  writeResults : List (Nat × Option Err)
  closeResult : Option Err
deriving DecidableEq, Repr

/-- Externally visible events of a `Write`/`Log` call: each socket write
(with the byte slice passed), the socket close, and each diagnostic line
emitted to the process log sink. -/
inductive Event where
  | writeCall (passed : List Nat) (bytesWritten : Nat) (result : Option Err)
  | closeCall (result : Option Err)
  | diag (line : String)
deriving DecidableEq, Repr

/-- The Go `const basicMessageFormat`, verbatim. -/
def basicMessageFormat : String :=
  "\x7b\"@timestamp\":\"%s\", \"@version\":\"2\", \"message\":\"%s\", \"host\":\"%s\"\x7d\n"

/-- `fmt.Sprintf` restricted to `%s` verbs: substitute the successive
arguments for the successive occurrences of `%s` in the format. -/
def substPercentS : List Char → List String → List Char
  | [], _ => []
  | '%' :: 's' :: rest, a :: args => a.toList ++ substPercentS rest args
  | '%' :: 's' :: rest, [] => '%' :: 's' :: substPercentS rest []
  | c :: rest, args => c :: substPercentS rest args

/-- `fmt.Sprintf` on a `%s`-only format string. -/
def sprintf (format : String) (args : List String) : String :=
  String.mk (substPercentS format.toList args)

/-- Go `[]byte(s)`: the bytes of the string (one entry per character;
payloads here are ASCII, so lengths agree with the Go byte lengths). -/
def strToBytes (s : String) : List Nat :=
  s.toList.map Char.toNat

/-- Modelled from the spec: the local hostname lookup facility
(`os.Hostname`), a best-effort external collaborator; on failure it reports
an error and yields the empty string. -/
def osHostname : Option String → String × Option Err
  | some h => (h, none)
  | none => ("", some "hostname lookup failed")

/-- First diagnostic line of `Write` on a transport failure. -/
def writeErrDiag (address : String) (expected actual : Nat) (e : Err) : String :=
  "Error while writing data to " ++ address ++ ". Expected to write "
    ++ toString expected ++ ", actually wrote " ++ toString actual
    ++ ". Underlying error: " ++ e

/-- Second diagnostic line of `Write` when the cleanup close also fails. -/
def closeErrDiag (address : String) : String :=
  "There was a subsequent error cleaning up the connection to " ++ address

/-- The write-until-complete loop of `Write`
(`for totalBytesWritten < toWriteLen && writeError == nil`): each iteration
writes the remaining suffix `rawBytes[totalBytesWritten:]` and accumulates
the count.  `results` supplies the socket's successive answers; `none` means
the supplied behavior is too short to decide the run. -/
def writeLoop (rawBytes : List Nat) (results : List (Nat × Option Err))
    (totalBytesWritten : Nat) : Option (Nat × Option Err × List Event) :=
  if totalBytesWritten < rawBytes.length then
    match results with
    | [] => none
    | (bytesWritten, e) :: rest =>
      let ev := Event.writeCall (rawBytes.drop totalBytesWritten) bytesWritten e
      match e with
      | some err =>
        some (totalBytesWritten + bytesWritten, some err, [ev])
      | none =>
        match writeLoop rawBytes rest (totalBytesWritten + bytesWritten) with
        | none => none
        | some (t, er, evs) => some (t, er, ev :: evs)
  else
    some (totalBytesWritten, none, [])

/-- `UDPWriter.Write`: run the loop; on a write error, optionally log a
diagnostic, close the socket, and if the close also fails optionally log
again and return the close error.  Returns the pair the Go function returns,
the writer (whose fields `Write` never assigns), and the event trace. -/
def UDPWriter.Write (u : UDPWriter) (beh : SocketBehavior) (rawBytes : List Nat) :
    Option ((Nat × Option Err) × UDPWriter × List Event) :=
  let toWriteLen := rawBytes.length
  match writeLoop rawBytes beh.writeResults 0 with
  | none => none
  | some (totalBytesWritten, writeError, evs0) =>
    match writeError with
    | some e =>
      let evs1 := if u.enableLogging then
          evs0 ++ [Event.diag (writeErrDiag u.address toWriteLen totalBytesWritten e)]
        else evs0
      let evs2 := evs1 ++ [Event.closeCall beh.closeResult]
      match beh.closeResult with
      | some closeErr =>
        let evs3 := if u.enableLogging then
            evs2 ++ [Event.diag (closeErrDiag u.address)]
          else evs2
        some ((totalBytesWritten, some closeErr), u, evs3)
      | none =>
        some ((totalBytesWritten, none), u, evs2)
    | none =>
      some ((totalBytesWritten, none), u, evs0)

/-- `UDPWriter.Log`: `host, _ := os.Hostname()`, format the envelope with the
current time, the message and the host, and delegate to `Write`. -/
def UDPWriter.Log (u : UDPWriter) (beh : SocketBehavior) (hostLookup : Option String)
    (now : String) (msg : String) :
    Option ((Nat × Option Err) × UDPWriter × List Event) :=
  let host := (osHostname hostLookup).1
  let data := sprintf basicMessageFormat [now, msg, host]
  u.Write beh (strToBytes data)

/-- `UDPWriter.Close`: delegates to the socket's close; assigns no field. -/
def UDPWriter.Close (u : UDPWriter) (beh : SocketBehavior) : Option Err × UDPWriter :=
  (beh.closeResult, u)

/-- Behavior of the runtime's address-resolution and dialing primitives:
`resolve` maps an address string to a resolved endpoint id or an error
(`net.ResolveUDPAddr`), `dial` maps an endpoint id to a fresh connected
socket handle or an error (`net.DialUDP`). -/
structure NetBehavior where
  resolve : String → Except Err Nat
  dial : Nat → Except Err Nat

/-- Externally visible events of `open`/`DialUDP`/`Reopen`: each address
resolution and each dial, with their results. -/
inductive NetEvent where
  | resolveCall (address : String) (result : Except Err Nat)
  | dialCall (endpointId : Nat) (result : Except Err Nat)
deriving Repr

/-- The unexported method `open`: resolve the configured address, dial it,
and store the new connection in the `socket` field.  (Named `openConn` here
because `open` is a keyword.) -/
def UDPWriter.openConn (u : UDPWriter) (net : NetBehavior) :
    Option Err × UDPWriter × List NetEvent :=
  match net.resolve u.address with
  | Except.error e => (some e, u, [NetEvent.resolveCall u.address (Except.error e)])
  | Except.ok udpAddr =>
    match net.dial udpAddr with
    | Except.error e =>
      (some e, u,
        [NetEvent.resolveCall u.address (Except.ok udpAddr),
         NetEvent.dialCall udpAddr (Except.error e)])
    | Except.ok conn =>
      (none, { u with socket := some conn },
        [NetEvent.resolveCall u.address (Except.ok udpAddr),
         NetEvent.dialCall udpAddr (Except.ok conn)])

/-- `DialUDP`: build the writer with the given address and logging flag,
`open` it, and return it; on any `open` error return the error and no
writer. -/
def DialUDP (address : String) (enableLogging : Bool) (net : NetBehavior) :
    Except Err UDPWriter × List NetEvent :=
  let writer : UDPWriter :=
    { socket := none, address := address, enableLogging := enableLogging }
  match writer.openConn net with
  | (some e, _, evs) => (Except.error e, evs)
  | (none, w, evs) => (Except.ok w, evs)

/-- `UDPWriter.Reopen`: close the current socket, propagating a close
failure at once, then `open` a fresh socket to the same configured
address. -/
def UDPWriter.Reopen (u : UDPWriter) (beh : SocketBehavior) (net : NetBehavior) :
    Option Err × UDPWriter × List NetEvent :=
  match u.Close beh with
  | (some e, u1) => (some e, u1, [])
  | (none, u1) =>
    match u1.openConn net with
    | (some e, u2, evs) => (some e, u2, evs)
    | (none, u2, evs) => (none, u2, evs)

/-- Liveness state of the OS-level socket handle a writer holds. -/
inductive SocketState where
  | openSock
  | closedSock
deriving DecidableEq, Repr

/-- Modelled from the spec: the OS datagram socket close primitive
(`net.UDPConn.Close`), an external collaborator.  Closing an open handle
succeeds and leaves it closed; closing an already-closed handle fails
(double-close is not idempotent). -/
def osSocketClose : SocketState → Option Err × SocketState
  | SocketState.openSock => (none, SocketState.closedSock)
  | SocketState.closedSock =>
    (some "use of closed network connection", SocketState.closedSock)

/-- `UDPWriter.Close` run against the OS-level socket state: the method
delegates unconditionally to the handle's close. -/
def UDPWriter.CloseOS (_ : UDPWriter) (st : SocketState) : Option Err × SocketState :=
  osSocketClose st

/-! ## Helper lemmas -/

/-- The loop exits at once, with no events, when nothing remains to write. -/
lemma writeLoop_done (rawBytes : List Nat) (results : List (Nat × Option Err))
    (totalBytesWritten : Nat) (h : ¬ totalBytesWritten < rawBytes.length) :
    writeLoop rawBytes results totalBytesWritten = some (totalBytesWritten, none, []) := by
  cases results <;> simp [writeLoop, h]

/-- The `(count, error)` pair `Write` returns is the loop's count paired
with: the close result when the loop hit an error, `none` otherwise.  In
particular it does not depend on the writer's fields. -/
lemma write_fst (u : UDPWriter) (beh : SocketBehavior) (bs : List Nat) :
    (u.Write beh bs).map (fun x => x.1)
      = (writeLoop bs beh.writeResults 0).map
          (fun r => (r.1, if r.2.1.isSome then beh.closeResult else none)) := by
  cases hw : writeLoop bs beh.writeResults 0 with
  | none => simp [UDPWriter.Write, hw]
  | some r =>
    obtain ⟨t, er, evs⟩ := r
    cases er with
    | none => simp [UDPWriter.Write, hw]
    | some e =>
      cases hc : beh.closeResult with
      | none => simp [UDPWriter.Write, hw, hc]
      | some ce => simp [UDPWriter.Write, hw, hc]

/-- `Write` never replaces the writer object: any projection of the writer
it returns equals that projection of the input writer. -/
lemma write_map_writer {α : Type} (u : UDPWriter) (beh : SocketBehavior)
    (bs : List Nat) (f : UDPWriter → α) :
    (u.Write beh bs).map (fun x => f x.2.1) = (u.Write beh bs).map (fun _ => f u) := by
  cases hw : writeLoop bs beh.writeResults 0 with
  | none => simp [UDPWriter.Write, hw]
  | some r =>
    obtain ⟨t, er, evs⟩ := r
    cases er with
    | none => simp [UDPWriter.Write, hw]
    | some e =>
      cases hc : beh.closeResult with
      | none => simp [UDPWriter.Write, hw, hc]
      | some ce => simp [UDPWriter.Write, hw, hc]

/-- The writer `Reopen` returns keeps the configured address and the
logging flag, whatever the close and net behaviors do. -/
lemma reopen_writer_config (u : UDPWriter) (beh : SocketBehavior) (net : NetBehavior) :
    (u.Reopen beh net).2.1.address = u.address
    ∧ (u.Reopen beh net).2.1.enableLogging = u.enableLogging := by
  cases hc : beh.closeResult with
  | some e => simp [UDPWriter.Reopen, UDPWriter.Close, hc]
  | none =>
    cases hr : net.resolve u.address with
    | error e => simp [UDPWriter.Reopen, UDPWriter.Close, UDPWriter.openConn, hc, hr]
    | ok endpointId =>
      cases hd : net.dial endpointId with
      | error e =>
        simp [UDPWriter.Reopen, UDPWriter.Close, UDPWriter.openConn, hc, hr, hd]
      | ok conn =>
        simp [UDPWriter.Reopen, UDPWriter.Close, UDPWriter.openConn, hc, hr, hd]

/-! ## Claim theorems -/

/-- C1: at the failing input — one pending byte, the socket write fails at
once, the cleanup close succeeds — `Write` performs exactly one close (one
`closeCall` in the trace) and returns the partial count `0`, but the error
it returns is `none` rather than the original write error: the assignment
`writeError = u.Close()` discards the write error when the close
succeeds. -/
theorem write_error_lost_on_successful_close :
    UDPWriter.Write ⟨some 1, "127.0.0.1:9999", false⟩
        ⟨[(0, some "write: connection refused")], none⟩ [7]
      = some ((0, none), ⟨some 1, "127.0.0.1:9999", false⟩,
          [Event.writeCall [7] 0 (some "write: connection refused"),
           Event.closeCall none]) := by
  rfl

/-- C2: at the failing input — a two-byte payload where the first socket
write accepts one byte and the second fails, with a successful cleanup
close — the loop does retry the remaining suffix `[2]`, but `Write` returns
`(1, none)`: a `nil` error with a byte count short of the payload length,
because the successful close overwrote the write error. -/
theorem write_partial_count_with_nil_error :
    UDPWriter.Write ⟨some 2, "10.0.0.1:514", false⟩
        ⟨[(1, none), (0, some "write: broken pipe")], none⟩ [1, 2]
      = some ((1, none), ⟨some 2, "10.0.0.1:514", false⟩,
          [Event.writeCall [1, 2] 1 none,
           Event.writeCall [2] 0 (some "write: broken pipe"),
           Event.closeCall none])
    ∧ (1 : Nat) ≠ ([1, 2] : List Nat).length := by
  exact ⟨rfl, by decide⟩

/-- C3: the envelope is exactly the template with the message substituted
verbatim and a single trailing newline (shown at the failing input), and its
serialized length is 71; yet `Log` returns `(0, none)` there — a `nil`
error with a byte count different from the payload length — because the
underlying `Write` swallowed the write error after a successful close. -/
theorem log_success_count_mismatch :
    sprintf basicMessageFormat ["TS", "test", "myhost"]
      = "\x7b\"@timestamp\":\"TS\", \"@version\":\"2\", \"message\":\"test\", \"host\":\"myhost\"\x7d\n"
    ∧ (strToBytes (sprintf basicMessageFormat ["TS", "test", "myhost"])).length = 71
    ∧ (UDPWriter.Log ⟨some 3, "logstash:5000", false⟩ ⟨[(0, some "i/o timeout")], none⟩
        (some "myhost") "TS" "test").map (fun x => x.1) = some (0, none)
    ∧ (0 : Nat) ≠ 71 := by
  refine ⟨rfl, rfl, rfl, by decide⟩

/-- C4: whenever address resolution fails, `DialUDP` returns that resolution
error and no writer, and the event trace holds only the failed resolve — no
dial ever happens, so no socket is opened. -/
theorem dialUDP_resolve_error (address : String) (enableLogging : Bool)
    (net : NetBehavior) (e : Err) (h : net.resolve address = Except.error e) :
    DialUDP address enableLogging net
      = (Except.error e, [NetEvent.resolveCall address (Except.error e)]) := by
  simp [DialUDP, UDPWriter.openConn, h]

/-- Witness for C4 at a concrete unresolvable address. -/
theorem dialUDP_resolve_error_witness :
    DialUDP "not a host:port" true
        ⟨fun _ => Except.error "no such host", fun endpointId => Except.ok endpointId⟩
      = (Except.error "no such host",
         [NetEvent.resolveCall "not a host:port" (Except.error "no such host")]) :=
  dialUDP_resolve_error "not a host:port" true
    ⟨fun _ => Except.error "no such host", fun endpointId => Except.ok endpointId⟩
    "no such host" rfl

/-- C5: `Reopen` closes first; if the close fails it returns the close error
at once, the writer unchanged and no resolve or dial attempted; if the close
succeeds and resolving the same configured address and dialing succeed, the
writer ends open with the fresh handle, its other fields unchanged. -/
theorem reopen_close_first (u : UDPWriter) (beh : SocketBehavior) (net : NetBehavior) :
    (∀ e, beh.closeResult = some e → u.Reopen beh net = (some e, u, []))
    ∧ (∀ a h, beh.closeResult = none → net.resolve u.address = Except.ok a →
        net.dial a = Except.ok h →
        u.Reopen beh net
          = (none, { u with socket := some h },
             [NetEvent.resolveCall u.address (Except.ok a),
              NetEvent.dialCall a (Except.ok h)])) := by
  constructor
  · intro e he
    simp [UDPWriter.Reopen, UDPWriter.Close, he]
  · intro a h hc hr hd
    simp [UDPWriter.Reopen, UDPWriter.Close, UDPWriter.openConn, hc, hr, hd]

/-- Witness for C5: a failing close short-circuits, a clean close reopens. -/
theorem reopen_close_first_witness :
    UDPWriter.Reopen ⟨some 1, "127.0.0.1:9999", true⟩ ⟨[], some "close failed"⟩
        ⟨fun _ => Except.ok 4, fun _ => Except.ok 9⟩
      = (some "close failed", ⟨some 1, "127.0.0.1:9999", true⟩, [])
    ∧ UDPWriter.Reopen ⟨some 1, "127.0.0.1:9999", true⟩ ⟨[], none⟩
        ⟨fun _ => Except.ok 4, fun _ => Except.ok 9⟩
      = (none, ⟨some 9, "127.0.0.1:9999", true⟩,
         [NetEvent.resolveCall "127.0.0.1:9999" (Except.ok 4),
          NetEvent.dialCall 4 (Except.ok 9)]) :=
  ⟨(reopen_close_first ⟨some 1, "127.0.0.1:9999", true⟩ ⟨[], some "close failed"⟩
      ⟨fun _ => Except.ok 4, fun _ => Except.ok 9⟩).1 "close failed" rfl,
   (reopen_close_first ⟨some 1, "127.0.0.1:9999", true⟩ ⟨[], none⟩
      ⟨fun _ => Except.ok 4, fun _ => Except.ok 9⟩).2 4 9 rfl rfl rfl⟩

/-- C6: when the hostname lookup fails it does report an error, yet `Log`
behaves exactly like `Write` on the envelope whose host field is the empty
string — the lookup error is swallowed and never surfaces in `Log`'s
result. -/
theorem log_swallows_hostname_failure (u : UDPWriter) (beh : SocketBehavior)
    (now msg : String) :
    (osHostname none).2 ≠ none
    ∧ u.Log beh none now msg
        = u.Write beh (strToBytes (sprintf basicMessageFormat [now, msg, ""])) :=
  ⟨by simp [osHostname], rfl⟩

/-- C8: the repo's `Close` delegates unconditionally to the socket handle's
close, so the first `Close` on an open writer succeeds and leaves the handle
closed, and a second `Close` returns an error — double-close is not
idempotent. -/
theorem close_twice_errors (u : UDPWriter) :
    (u.CloseOS SocketState.openSock).1 = none
    ∧ (u.CloseOS SocketState.openSock).2 = SocketState.closedSock
    ∧ ((u.CloseOS (u.CloseOS SocketState.openSock).2).1).isSome = true := by
  refine ⟨rfl, rfl, rfl⟩

/-- C9: on the empty payload `Write` returns `(0, nil)` and its trace is
empty — the loop body never runs, so no socket write and no close
happens. -/
theorem write_empty (u : UDPWriter) (beh : SocketBehavior) :
    u.Write beh [] = some ((0, none), u, []) := by
  simp [UDPWriter.Write, writeLoop_done]

/-- C7: two writers differing only in the `enableLogging` flag return the
same `(count, error)` results from `Write`, `Log`, `Close` and `Reopen` for
identical inputs and identical socket and net behavior — the diagnostic
flag only adds `diag` lines to the side-channel trace. -/
theorem enableLogging_no_influence (s : Option Nat) (a : String) (b1 b2 : Bool)
    (beh : SocketBehavior) (net : NetBehavior) (bs : List Nat)
    (hostLookup : Option String) (now msg : String) :
    (UDPWriter.Write ⟨s, a, b1⟩ beh bs).map (fun x => x.1)
      = (UDPWriter.Write ⟨s, a, b2⟩ beh bs).map (fun x => x.1)
    ∧ (UDPWriter.Log ⟨s, a, b1⟩ beh hostLookup now msg).map (fun x => x.1)
      = (UDPWriter.Log ⟨s, a, b2⟩ beh hostLookup now msg).map (fun x => x.1)
    ∧ (UDPWriter.Close ⟨s, a, b1⟩ beh).1 = (UDPWriter.Close ⟨s, a, b2⟩ beh).1
    ∧ (UDPWriter.Reopen ⟨s, a, b1⟩ beh net).1
      = (UDPWriter.Reopen ⟨s, a, b2⟩ beh net).1 := by
  refine ⟨by rw [write_fst, write_fst], ?_, rfl, ?_⟩
  · simp only [UDPWriter.Log]
    rw [write_fst, write_fst]
  · cases hc : beh.closeResult with
    | some e => simp [UDPWriter.Reopen, UDPWriter.Close, hc]
    | none =>
      cases hr : net.resolve a with
      | error e =>
        simp [UDPWriter.Reopen, UDPWriter.Close, UDPWriter.openConn, hc, hr]
      | ok endpointId =>
        cases hd : net.dial endpointId with
        | error e =>
          simp [UDPWriter.Reopen, UDPWriter.Close, UDPWriter.openConn, hc, hr, hd]
        | ok conn =>
          simp [UDPWriter.Reopen, UDPWriter.Close, UDPWriter.openConn, hc, hr, hd]

/-- C10: `Write`, `Log`, `Close` and `Reopen` all keep the configured
address and the `enableLogging` flag of the writer they return; only the
`socket` field ever changes after construction. -/
theorem ops_preserve_config (u : UDPWriter) (beh : SocketBehavior) (net : NetBehavior)
    (bs : List Nat) (hostLookup : Option String) (now msg : String) :
    (u.Write beh bs).map (fun x => (x.2.1.address, x.2.1.enableLogging))
      = (u.Write beh bs).map (fun _ => (u.address, u.enableLogging))
    ∧ (u.Log beh hostLookup now msg).map (fun x => (x.2.1.address, x.2.1.enableLogging))
      = (u.Log beh hostLookup now msg).map (fun _ => (u.address, u.enableLogging))
    ∧ (u.Close beh).2.address = u.address
    ∧ (u.Close beh).2.enableLogging = u.enableLogging
    ∧ (u.Reopen beh net).2.1.address = u.address
    ∧ (u.Reopen beh net).2.1.enableLogging = u.enableLogging := by
  refine ⟨write_map_writer u beh bs (fun w => (w.address, w.enableLogging)), ?_, rfl, rfl,
    (reopen_writer_config u beh net).1, (reopen_writer_config u beh net).2⟩
  simp only [UDPWriter.Log]
  exact write_map_writer u beh _ (fun w => (w.address, w.enableLogging))

end Logopher
